import Mathlib

/-!
Shallow embedding of the Tripay callback service (`src/server.mjs`).

The JavaScript source is translated into executable Lean definitions:
  * a JSON value model and the JS truthiness / coercion helpers the
    handler relies on (`||` chains, `Number`, `String`, `parseInt`),
  * HMAC-SHA-256 over UTF-8 bytes (as `crypto.createHmac("sha256", k)`),
  * the persistent store (invoices / wallets / ledger) and the
    Supabase operations used by the handler, in a state monad; a
    scheduled persistence failure resolves with `{data: null, error}`
    (supabase-js does not throw) and the code discards the error,
  * `markPaid` and `handleTripayCallback`, line by line.
-/

/-- JSON values as produced by `JSON.parse`.  Numbers are modelled as
integers (the payloads the service manipulates are integral amounts). -/
inductive Json where
  | null : Json
  | bool : Bool → Json
  | num : Int → Json
  | str : String → Json
  | arr : List Json → Json
  | obj : List (String × Json) → Json

/-- JS truthiness of a JSON value (`undefined` is modelled as
`Option.none` at use sites). -/
def jsTruthy : Json → Bool
  | .null => false
  | .bool b => b
  | .num n => decide (n ≠ 0)
  | .str s => decide (s ≠ "")
  | .arr _ => true
  | .obj _ => true

/-- Property lookup `o.k` on a JSON value: defined fields of objects,
`undefined` (`none`) otherwise. -/
def getField : Json → String → Option Json
  | .obj kvs, k => (kvs.find? (fun kv => kv.1 == k)).map (·.2)
  | _, _ => none

/-- ASCII lower-casing of one character, the fragment of JS
`String.prototype.toLowerCase` relevant to hex signatures. -/
def lowerChar (c : Char) : Char :=
  if 65 ≤ c.toNat ∧ c.toNat ≤ 90 then Char.ofNat (c.toNat + 32) else c

/-- ASCII upper-casing of one character (JS `toUpperCase`). -/
def upperChar (c : Char) : Char :=
  if 97 ≤ c.toNat ∧ c.toNat ≤ 122 then Char.ofNat (c.toNat - 32) else c

def strLower (s : String) : String := ⟨s.data.map lowerChar⟩

def strUpper (s : String) : String := ⟨s.data.map upperChar⟩

/-- UTF-8 encoding of one character. -/
def utf8Char (c : Char) : List Nat :=
  let n := c.toNat
  if n < 128 then [n]
  else if n < 2048 then [192 + n / 64, 128 + n % 64]
  else if n < 65536 then [224 + n / 4096, 128 + n / 64 % 64, 128 + n % 64]
  else [240 + n / 262144, 128 + n / 4096 % 64, 128 + n / 64 % 64, 128 + n % 64]

/-- UTF-8 bytes of a string, the input `crypto` hashes. -/
def strBytes (s : String) : List Nat := s.data.flatMap utf8Char

/-! ### SHA-256 (over byte lists, words as `Nat` reduced mod 2^32) -/

def w32 : Nat := 4294967296

def rotr (n x : Nat) : Nat := ((x >>> n) ||| (x <<< (32 - n))) % w32

def wnot (x : Nat) : Nat := x ^^^ 4294967295

def bigSigma0 (x : Nat) : Nat := rotr 2 x ^^^ rotr 13 x ^^^ rotr 22 x
def bigSigma1 (x : Nat) : Nat := rotr 6 x ^^^ rotr 11 x ^^^ rotr 25 x
def smallSigma0 (x : Nat) : Nat := rotr 7 x ^^^ rotr 18 x ^^^ (x >>> 3)
def smallSigma1 (x : Nat) : Nat := rotr 17 x ^^^ rotr 19 x ^^^ (x >>> 10)

def sha256K : List Nat :=
  [1116352408, 1899447441, 3049323471, 3921009573, 961987163,
   1508970993, 2453635748, 2870763221, 3624381080, 310598401,
   607225278, 1426881987, 1925078388, 2162078206, 2614888103,
   3248222580, 3835390401, 4022224774, 264347078, 604807628,
   770255983, 1249150122, 1555081692, 1996064986, 2554220882,
   2821834349, 2952996808, 3210313671, 3336571891, 3584528711,
   113926993, 338241895, 666307205, 773529912, 1294757372,
   1396182291, 1695183700, 1986661051, 2177026350, 2456956037,
   2730485921, 2820302411, 3259730800, 3345764771, 3516065817,
   3600352804, 4094571909, 275423344, 430227734, 506948616,
   659060556, 883997877, 958139571, 1322822218, 1537002063,
   1747873779, 1955562222, 2024104815, 2227730452, 2361852424,
   2428436474, 2756734187, 3204031479, 3329325298]

def sha256H0 : List Nat :=
  [1779033703, 3144134277, 1013904242, 2773480762,
   1359893119, 2600822924, 528734635, 1541459225]

/-- Group bytes into big-endian 32-bit words. -/
def bytesToWords : List Nat → List Nat
  | b0 :: b1 :: b2 :: b3 :: rest =>
      (((b0 * 256 + b1) * 256 + b2) * 256 + b3) :: bytesToWords rest
  | _ => []

/-- Message-schedule extension: 48 extra words. -/
def wSched (block : List Nat) : List Nat :=
  (List.range 48).foldl
    (fun w i =>
      w ++ [(smallSigma1 (w.getD (i + 14) 0) + w.getD (i + 9) 0 +
             smallSigma0 (w.getD (i + 1) 0) + w.getD i 0) % w32])
    block

def shaStep (w : List Nat) (s : List Nat) (i : Nat) : List Nat :=
  match s with
  | [a, b, c, d, e, f, g, h] =>
      let ch := (e &&& f) ^^^ (wnot e &&& g)
      let maj := (a &&& b) ^^^ (a &&& c) ^^^ (b &&& c)
      let t1 := (h + bigSigma1 e + ch + sha256K.getD i 0 + w.getD i 0) % w32
      let t2 := (bigSigma0 a + maj) % w32
      [(t1 + t2) % w32, a, b, c, (d + t1) % w32, e, f, g]
  | s => s

def compress (h : List Nat) (block : List Nat) : List Nat :=
  let w := wSched (bytesToWords block)
  let v := (List.range 64).foldl (shaStep w) h
  List.zipWith (fun x y => (x + y) % w32) h v

/-- `n` as `k` big-endian bytes. -/
def natToBytesBE : Nat → Nat → List Nat
  | 0, _ => []
  | k + 1, n => natToBytesBE k (n / 256) ++ [n % 256]

/-- SHA-256 padding: 0x80, zeros, 64-bit big-endian bit length. -/
def sha256Pad (msg : List Nat) : List Nat :=
  let len := msg.length
  msg ++ [128] ++ List.replicate ((64 - (len + 9) % 64) % 64) 0 ++
    natToBytesBE 8 (len * 8)

def chunks64Aux : Nat → List Nat → List (List Nat)
  | 0, _ => []
  | _, [] => []
  | fuel + 1, l => l.take 64 :: chunks64Aux fuel (l.drop 64)

def chunks64 (l : List Nat) : List (List Nat) := chunks64Aux l.length l

def sha256 (msg : List Nat) : List Nat :=
  ((chunks64 (sha256Pad msg)).foldl compress sha256H0).flatMap (natToBytesBE 4)

/-- HMAC-SHA-256 over byte lists. -/
def hmacSha256 (key msg : List Nat) : List Nat :=
  let k0 := if 64 < key.length then sha256 key else key
  let k := k0 ++ List.replicate (64 - k0.length) 0
  let ipad := k.map (fun b => b ^^^ 0x36)
  let opad := k.map (fun b => b ^^^ 0x5c)
  sha256 (opad ++ sha256 (ipad ++ msg))

/-- The lowercase hex digit for `d < 16` (`0`–`9` then `a`–`f`). -/
def hexDigit (d : Nat) : Char :=
  if d < 10 then Char.ofNat (48 + d)
  else if d < 16 then Char.ofNat (87 + d)
  else '0'

def hexChars (bs : List Nat) : List Char :=
  bs.flatMap (fun b => [hexDigit (b / 16), hexDigit (b % 16)])

/-- Lowercase hex encoding (node's `digest("hex")`). -/
def hexStr (bs : List Nat) : String := ⟨hexChars bs⟩

/-! ### JS coercion helpers used by the handler -/

/-- JS `String()` on a JSON value (array/object cases follow JS's
`toString`: comma-join, `[object Object]`). -/
def jsToString : Json → String
  | .null => "null"
  | .bool b => if b then "true" else "false"
  | .num n => toString n
  | .str s => s
  | .arr xs => String.intercalate "," (xs.map fun x => jsToStringElem x)
  | .obj _ => "[object Object]"
where
  /-- Array elements: `null` renders empty inside `Array.prototype.join`. -/
  jsToStringElem : Json → String
    | .null => ""
    | .bool b => if b then "true" else "false"
    | .num n => toString n
    | .str s => s
    | .arr _ => ""
    | .obj _ => "[object Object]"

/-- Leading decimal digits of a character list. -/
def takeDigits : List Char → List Char
  | c :: cs => if 48 ≤ c.toNat ∧ c.toNat ≤ 57 then c :: takeDigits cs else []
  | [] => []

def digitsToNat (ds : List Char) : Nat :=
  ds.foldl (fun acc c => acc * 10 + (c.toNat - 48)) 0

def isWs (c : Char) : Bool := c == ' ' || c == '\t' || c == '\n' || c == '\r'

/-- JS `parseInt(s, 10)`: skip whitespace, optional sign, then the
longest prefix of decimal digits; `none` models `NaN`. -/
def jsParseInt (s : String) : Option Int :=
  let cs := s.data.dropWhile isWs
  let (neg, cs) :=
    match cs with
    | '-' :: rest => (true, rest)
    | '+' :: rest => (false, rest)
    | cs => (false, cs)
  let ds := takeDigits cs
  if ds = [] then none
  else some (if neg then -(digitsToNat ds : Int) else (digitsToNat ds : Int))

/-- JS `Number(s)` on a string: trimmed-empty is `0`; an optional sign
followed only by digits parses; anything else is `NaN` (`none`).
(Fractional/hex/exponent forms are not exercised by this service.) -/
def jsStringToNumber (s : String) : Option Int :=
  let cs := (s.data.dropWhile isWs).reverse.dropWhile isWs |>.reverse
  if cs = [] then some 0
  else
    let (neg, ds) :=
      match cs with
      | '-' :: rest => (true, rest)
      | '+' :: rest => (false, rest)
      | cs => (false, cs)
    if ds ≠ [] ∧ takeDigits ds = ds then
      some (if neg then -(digitsToNat ds : Int) else (digitsToNat ds : Int))
    else none

/-- JS `Number()` on a JSON value; `none` models `NaN`.  (The `[x]`
array coercions are approximated as `NaN`; the handler never feeds
arrays to `Number`.) -/
def jsNumber : Json → Option Int
  | .null => some 0
  | .bool b => some (if b then 1 else 0)
  | .num n => some n
  | .str s => jsStringToNumber s
  | .arr [] => some 0
  | .arr _ => none
  | .obj _ => none

/-- `a || b || …` over possibly-undefined JSON field values: the first
defined truthy value, else `none` (covering both a trailing falsy value
and `undefined`, which the callers replace by their own default). -/
def firstTruthy : List (Option Json) → Option Json
  | [] => none
  | some v :: rest => if jsTruthy v then some v else firstTruthy rest
  | none :: rest => firstTruthy rest

/-! ### The persistent store -/

/-- One row of `topup_invoices`.  Nullable columns are `Option`s. -/
structure InvoiceRow where
  external_id : String
  user_id : Option String
  credits : Option Int
  amount : Option Int
  status : Option String
  paid_at : Option Nat
  raw : List (String × Json)

/-- One row of `credits_ledger`. -/
structure LedgerEntry where
  user_id : String
  reason : String
  amount : Int
  external_id : String

/-- The three tables the service touches.  Wallets are
`user_id ↦ balance` pairs. -/
structure Store where
  invoices : List InvoiceRow
  wallets : List (String × Int)
  ledger : List LedgerEntry

def emptyStore : Store := ⟨[], [], []⟩

/-- `.from("topup_invoices").select(…).eq("external_id", ext).maybeSingle()` -/
def findInvoice (st : Store) (ext : String) : Option InvoiceRow :=
  st.invoices.find? (fun r => r.external_id == ext)

/-- `upsert` on `topup_invoices` with `onConflict: "external_id"`.
`paidAt = some t` means the `paid_at` column was supplied with value
`t`; `none` means the column was not in the payload, so an existing
row keeps its value and a fresh row gets NULL. -/
def upsertRowList (l : List InvoiceRow) (ext uid : String) (credits amount : Int)
    (status : String) (paidAt : Option Nat) (raw : List (String × Json)) :
    List InvoiceRow :=
  if l.any (fun r => r.external_id == ext) then
    l.map fun r =>
      if r.external_id == ext then
        { external_id := ext, user_id := some uid, credits := some credits,
          amount := some amount, status := some status,
          paid_at := match paidAt with | some t => some t | none => r.paid_at,
          raw := raw }
      else r
  else
    l ++ [{ external_id := ext, user_id := some uid, credits := some credits,
            amount := some amount, status := some status, paid_at := paidAt,
            raw := raw }]

def upsertInvoice (st : Store) (ext uid : String) (credits amount : Int)
    (status : String) (paidAt : Option Nat) (raw : List (String × Json)) : Store :=
  { st with
    invoices := upsertRowList st.invoices ext uid credits amount status paidAt raw }

/-- `upsert({user_id, balance: 0}, {onConflict: "user_id", ignoreDuplicates: true})` -/
def ensureWalletList (ws : List (String × Int)) (uid : String) : List (String × Int) :=
  if ws.any (fun w => w.1 == uid) then ws else ws ++ [(uid, 0)]

def ensureWallet (st : Store) (uid : String) : Store :=
  { st with wallets := ensureWalletList st.wallets uid }

/-- `.from("credits_wallet").select("balance").eq("user_id", uid).maybeSingle()` -/
def getBalance (st : Store) (uid : String) : Option Int :=
  (st.wallets.find? (fun w => w.1 == uid)).map (·.2)

/-- `.from("credits_wallet").update({balance}).eq("user_id", uid)` -/
def setBalance (st : Store) (uid : String) (b : Int) : Store :=
  { st with wallets := st.wallets.map fun w => if w.1 == uid then (w.1, b) else w }

/-- `.from("credits_ledger").insert({...})` -/
def insertLedger (st : Store) (e : LedgerEntry) : Store :=
  { st with ledger := st.ledger ++ [e] }

/-! ### The DB monad

Each `await supabaseAdmin.…` is one operation.  Operations are
numbered; `failAt = some i` makes the `i`-th operation of the request
fail.  A failing supabase call does not throw: the builder resolves
with `{ data: null, error }` (no `.throwOnError()` is used anywhere),
so a failed read yields `null` data, a failed write mutates nothing,
and control continues — the `error` field is never read by the source
(lines 64, 95 and 192 destructure `data` only; the write results at
lines 71, 90, 102, 107, 114 and 237 are discarded).  The `Except`
layer of the monad carries a genuinely thrown JS exception, which is
what the `try/catch` at lines 191–256 catches; none of the modelled
persistence operations produce one.  `now` is the clock behind
`new Date()`. -/

structure DbSt where
  store : Store
  opIdx : Nat
  failAt : Option Nat
  now : Nat

def DbM (α : Type) : Type := DbSt → Except Unit α × DbSt

instance : Monad DbM where
  pure a := fun s => (.ok a, s)
  bind m f := fun s =>
    match m s with
    | (.ok a, s') => f a s'
    | (.error e, s') => (.error e, s')

/-- One persistence round-trip (`await` on a supabase builder): always
resolves; the returned Bool says whether this operation failed (its
`error` field was set).  The callers, like the source, never read it
beyond substituting `null` data / skipping the write. -/
def dbOp : DbM Bool := fun s =>
  (.ok (decide (s.failAt = some s.opIdx)), { s with opIdx := s.opIdx + 1 })

def dbGetStore : DbM Store := fun s => (.ok s.store, s)

def dbModifyStore (f : Nat → Store → Store) : DbM Unit := fun s =>
  (.ok (), { s with store := f s.now s.store })

/-- `try { m } catch { h }`: catches thrown exceptions only — a
supabase persistence failure resolves and is not caught. -/
def dbTry (m : DbM α) (h : Unit → DbM α) : DbM α := fun s =>
  match m s with
  | (.ok a, s') => (.ok a, s')
  | (.error e, s') => h e s'

def dbFindInvoice (ext : String) : DbM (Option InvoiceRow) := do
  let failed ← dbOp
  if failed then pure none
  else do
    let st ← dbGetStore
    pure (findInvoice st ext)

def dbUpsertInvoice (ext uid : String) (credits amount : Int) (status : String)
    (withPaidAt : Bool) (raw : List (String × Json)) : DbM Unit := do
  let failed ← dbOp
  if failed then pure ()
  else
    dbModifyStore fun now st =>
      upsertInvoice st ext uid credits amount status
        (if withPaidAt then some now else none) raw

def dbEnsureWallet (uid : String) : DbM Unit := do
  let failed ← dbOp
  if failed then pure ()
  else dbModifyStore fun _ st => ensureWallet st uid

def dbGetBalance (uid : String) : DbM (Option Int) := do
  let failed ← dbOp
  if failed then pure none
  else do
    let st ← dbGetStore
    pure (getBalance st uid)

def dbSetBalance (uid : String) (b : Int) : DbM Unit := do
  let failed ← dbOp
  if failed then pure ()
  else dbModifyStore fun _ st => setBalance st uid b

def dbInsertLedger (e : LedgerEntry) : DbM Unit := do
  let failed ← dbOp
  if failed then pure ()
  else dbModifyStore fun _ st => insertLedger st e

/-! ### `markPaid` (server.mjs lines 63–130) -/

/-- `Object.assign({}, auditRow.raw || {}, payload || {})`, as a map:
keys of the new payload win.  A non-object (falsy or primitive)
payload contributes no keys. -/
def ownProps (p : Json) : List (String × Json) :=
  match p with
  | .obj kvs => kvs
  | _ => []

def objAssign (a b : List (String × Json)) : List (String × Json) :=
  a.filter (fun kv => ¬ b.any (fun kv' => kv'.1 == kv.1)) ++ b

def mergedRaw (auditRow : Option InvoiceRow) (payload : Json) : List (String × Json) :=
  objAssign (match auditRow with | some r => r.raw | none => []) (ownProps payload)

/-- `auditRow && auditRow.status === "PAID"` -/
def rowIsPaid (auditRow : Option InvoiceRow) : Bool :=
  match auditRow with
  | some r => r.status == some "PAID"
  | none => false

def markPaid (externalId userId : String) (credits amount : Int)
    (payload : Json) : DbM Unit := do
  let auditRow ← dbFindInvoice externalId
  if rowIsPaid auditRow then
    dbUpsertInvoice externalId userId credits amount "PAID" true
      (mergedRaw auditRow payload)
  else
    dbEnsureWallet userId
    let wallet ← dbGetBalance userId
    -- `Number((wallet && wallet.balance) || 0)`
    let current : Int := match wallet with | some b => b | none => 0
    dbSetBalance userId (current + credits)
    dbInsertLedger
      { user_id := userId, reason := "purchase_credits", amount := credits,
        external_id := externalId }
    dbUpsertInvoice externalId userId credits amount "PAID" true
      (mergedRaw auditRow payload)

/-! ### The HTTP layer (server.mjs lines 132–259) -/

/-- An incoming request after `readRawBody` resolved: method, headers
(as node delivers them) and the raw body string. -/
structure Request where
  method : String
  headers : List (String × String)
  body : String

/-- A `sendJson` response: status code plus the JSON body fields the
handler ever emits. -/
structure Response where
  status : Nat
  success : Bool
  error : Option String := none
  note : Option String := none
deriving DecidableEq

def respMethodNotAllowed : Response := ⟨405, false, some "Method not allowed", none⟩
def respInvalidBody : Response := ⟨400, false, some "Invalid body", none⟩
def respInvalidJson : Response := ⟨400, false, some "Invalid JSON", none⟩
def respMissingSig : Response := ⟨400, false, some "Missing callback signature", none⟩
def respInvalidSig : Response := ⟨400, false, some "Invalid signature", none⟩
def respIgnoredNonTopup : Response := ⟨200, true, none, some "Ignored non-topup callback"⟩
def respMissingUser : Response := ⟨200, true, none, some "Missing user/credits"⟩
def respInternal : Response := ⟨500, false, some "Internal", none⟩
def respSuccess : Response := ⟨200, true, none, none⟩

def headerGet (hs : List (String × String)) (name : String) : Option String :=
  (hs.find? (fun h => h.1 == name)).map (·.2)

/-- `x || rest` where `x` is a possibly-undefined header value. -/
def jsOrStr (v : Option String) (rest : String) : String :=
  match v with
  | some s => if s = "" then rest else s
  | none => rest

/-- `getHeaderSignature` (lines 52–61). -/
def getHeaderSignature (req : Request) : String :=
  jsOrStr (headerGet req.headers "x-callback-signature")
    (jsOrStr (headerGet req.headers "X-Callback-Signature")
      (jsOrStr (headerGet req.headers "x-signature")
        (jsOrStr (headerGet req.headers "X-Signature") "")))

/-- `crypto.createHmac("sha256", key).update(raw).digest("hex").toLowerCase()` -/
def expectedSignature (secret raw : String) : String :=
  strLower (hexStr (hmacSha256 (strBytes secret) (strBytes raw)))

/-- The verification predicate of lines 155–170: fails closed on a
missing secret or signature, otherwise case-insensitive comparison of
the supplied signature against the hex HMAC-SHA-256 of the raw body. -/
def signatureOk (secret raw sig : String) : Bool :=
  ¬ secret = "" && ¬ sig = "" && expectedSignature secret raw == strLower sig

/-- Lines 144–151: an empty body skips `JSON.parse` and keeps the
`{}` default; a non-empty body is parsed, `none` meaning a thrown
`JSON.parse` error. -/
def parsePayload (parse : String → Option Json) (body : String) : Option Json :=
  if body = "" then some (.obj []) else parse body

/-- Lines 172–175: the data envelope — `payload.data` when the payload
is a defined object with non-null `data`, else the payload itself
(`{}` when falsy). -/
def dataEnvelope (payload : Json) : Json :=
  if jsTruthy payload && isObjectType payload && dataFieldPresent payload then
    (getField payload "data").getD .null
  else if jsTruthy payload then payload
  else .obj []
where
  /-- `typeof payload === "object"` -/
  isObjectType : Json → Bool
    | .obj _ => true
    | .arr _ => true
    | .null => true
    | _ => false
  /-- `payload.data != null` (loose: excludes `undefined` and `null`) -/
  dataFieldPresent (payload : Json) : Bool :=
    match getField payload "data" with
    | some .null => false
    | some _ => true
    | none => false

/-- Lines 176–177: `(data && (data.merchant_ref || data.merchantRef ||
data.reference)) || ""`, then `String(merchantRef || "")` (line 183). -/
def externalOf (data : Json) : String :=
  if jsTruthy data then
    match firstTruthy
        [getField data "merchant_ref", getField data "merchantRef",
         getField data "reference"] with
    | some v => jsToString v
    | none => ""
  else ""

/-- Lines 178–180: `Number((data && (data.amount || data.total_amount
|| 0)) || 0)`; `none` models `NaN`. -/
def amountRawOf (data : Json) : Option Int :=
  if jsTruthy data then
    match firstTruthy [getField data "amount", getField data "total_amount"] with
    | some v => jsNumber v
    | none => some 0
  else some 0

/-- Line 181: `String((data && data.status) || "").toUpperCase()`. -/
def statusRawOf (data : Json) : String :=
  strUpper
    (if jsTruthy data then
      match getField data "status" with
      | some v => if jsTruthy v then jsToString v else ""
      | none => ""
    else "")

/-- Lines 227–232. -/
def normStatus (statusRaw : String) : String :=
  if statusRaw = "PAID" ∨ statusRaw = "SUCCESS" then "PAID"
  else if statusRaw = "EXPIRED" then "EXPIRED"
  else "PENDING"

/-- Line 198: `(auditRow && auditRow.user_id) || null` (an empty
string is falsy, hence null). -/
def rowUserId (auditRow : Option InvoiceRow) : Option String :=
  match auditRow with
  | some r =>
    match r.user_id with
    | some u => if u = "" then none else some u
    | none => none
  | none => none

/-- Lines 199–200: `Number((auditRow && auditRow.credits) || 0) || null`. -/
def rowCredits (auditRow : Option InvoiceRow) : Option Int :=
  match auditRow with
  | some r =>
    match r.credits with
    | some c => if c = 0 then none else some c
    | none => none
  | none => none

/-- Lines 201–203: `Number((auditRow && auditRow.amount) || amountRaw
|| 0)`; a `NaN` `amountRaw` is falsy and falls through to `0`. -/
def initAmount (auditRow : Option InvoiceRow) (amountRaw : Option Int) : Int :=
  match auditRow with
  | some r =>
    match r.amount with
    | some a => if a ≠ 0 then a else amountRawDefault
    | none => amountRawDefault
  | none => amountRawDefault
where
  amountRawDefault : Int :=
    match amountRaw with
    | some v => if v ≠ 0 then v else 0
    | none => 0

def jsFalsyS : Option String → Bool
  | none => true
  | some s => decide (s = "")

def jsFalsyN : Option Int → Bool
  | none => true
  | some n => decide (n = 0)

/-- JS `String.prototype.split` on a single-character separator
(`external.split("_")`): splits at every occurrence, keeping empty
pieces; `"".split("_")` is `[""]`. -/
def splitOnChar (sep : Char) : List Char → List (List Char)
  | [] => [[]]
  | c :: cs =>
      let r := splitOnChar sep cs
      if c == sep then [] :: r
      else
        match r with
        | h :: t => (c :: h) :: t
        | [] => [[c]]

def jsSplit (s : String) (sep : Char) : List String :=
  (splitOnChar sep s.data).map fun l => ⟨l⟩

/-- Lines 205–214: the underscore-encoding fallback. -/
def resolveIds (external : String) (userId0 : Option String)
    (credits0 : Option Int) : Option String × Option Int :=
  if jsFalsyS userId0 || jsFalsyN credits0 then
    let parts := jsSplit external '_'
    if 4 ≤ parts.length then
      let userId := some (parts.getD 1 "")
      let credits :=
        match jsParseInt (parts.getD 3 "") with
        | some c => if 0 < c then some c else credits0
        | none => credits0
      (userId, credits)
    else (userId0, credits0)
  else (userId0, credits0)

/-- The `try` block, lines 192–252.  `some r` is an early `return`
from inside the block; `none` falls through to the final 200. -/
def settleBody (external : String) (amountRaw : Option Int)
    (statusRaw : String) (payload : Json) : DbM (Option Response) := do
  let auditRow ← dbFindInvoice external
  let userId0 := rowUserId auditRow
  let credits0 := rowCredits auditRow
  let amount0 := initAmount auditRow amountRaw
  let (userId, credits) := resolveIds external userId0 credits0
  if jsFalsyS userId || jsFalsyN credits || decide (credits.getD 0 ≤ 0) then
    pure (some respMissingUser)
  else
    -- `if (!isFinite(amount) || amount <= 0) amount = credits * 300`
    let amount := if amount0 ≤ 0 then credits.getD 0 * 300 else amount0
    let normalizedStatus := normStatus statusRaw
    if normalizedStatus = "PAID" then do
      markPaid external (userId.getD "") (credits.getD 0) amount payload
      pure none
    else do
      dbUpsertInvoice external (userId.getD "") (credits.getD 0) amount
        normalizedStatus false (mergedRaw auditRow payload)
      pure none

/-- JS `String.prototype.startsWith` (`external.startsWith("topup_")`). -/
def jsStartsWith (s pre : String) : Bool := pre.data.isPrefixOf s.data

/-- Lines 172–258: everything after signature verification. -/
def routePayload (payload : Json) : DbM Response :=
  let data := dataEnvelope payload
  let external := externalOf data
  let amountRaw := amountRawOf data
  let statusRaw := statusRawOf data
  if ¬ jsStartsWith external "topup_" then pure respIgnoredNonTopup
  else
    dbTry
      (do
        match ← settleBody external amountRaw statusRaw payload with
        | some r => pure r
        | none => pure respSuccess)
      (fun _ => pure respInternal)

/-- Lines 153–258: signature verification then routing. -/
def afterParse (secret : String) (req : Request) (payload : Json) : DbM Response :=
  let headerSignature := getHeaderSignature req
  if secret = "" ∨ headerSignature = "" then pure respMissingSig
  else if expectedSignature secret req.body ≠ strLower headerSignature then
    pure respInvalidSig
  else routePayload payload

/-- `handleTripayCallback` (lines 132–259), for a request whose body
was read successfully.  `parse` abstracts the platform's `JSON.parse`. -/
def handleTripayCallback (parse : String → Option Json) (secret : String)
    (req : Request) : DbM Response :=
  if req.method ≠ "POST" then pure respMethodNotAllowed
  else
    match parsePayload parse req.body with
    | none => pure respInvalidJson
    | some payload => afterParse secret req payload

/-! ### Run helpers and observations -/

/-- Run a request against a store with a failure schedule. -/
def runHandler (parse : String → Option Json) (secret : String) (req : Request)
    (st : Store) (failAt : Option Nat) (now : Nat) : Except Unit Response × DbSt :=
  handleTripayCallback parse secret req ⟨st, 0, failAt, now⟩

/-- The store after running `markPaid` with no persistence failure. -/
def markPaidRun (ext uid : String) (credits amount : Int) (payload : Json)
    (now : Nat) (st : Store) : Store :=
  (markPaid ext uid credits amount payload ⟨st, 0, none, now⟩).2.store

/-- `n` sequential failure-free deliveries of the same `PAID` settlement. -/
def deliverPaidN (ext uid : String) (credits amount : Int) (payload : Json)
    (now : Nat) : Nat → Store → Store
  | 0, st => st
  | n + 1, st => markPaidRun ext uid credits amount payload now
      (deliverPaidN ext uid credits amount payload now n st)

/-- Number of ledger entries crediting reference `ext`. -/
def ledgerCount (st : Store) (ext : String) : Nat :=
  (st.ledger.filter (fun e => e.external_id == ext)).length

def invoiceStatus (st : Store) (ext : String) : Option String :=
  (findInvoice st ext).bind (·.status)

/-- Wallet balance with the handler's `|| 0` default. -/
def walletBalOr0 (st : Store) (uid : String) : Int :=
  match getBalance st uid with
  | some b => b
  | none => 0

/-! ### Helper lemmas: digest shape and case-insensitivity -/

theorem shaStep_length (w : List Nat) (s : List Nat) (i : Nat) :
    (shaStep w s i).length = s.length := by
  rcases s with _ | ⟨a, _ | ⟨b, _ | ⟨c, _ | ⟨d, _ | ⟨e, _ | ⟨f, _ | ⟨g,
    _ | ⟨h, _ | ⟨x, rest⟩⟩⟩⟩⟩⟩⟩⟩⟩ <;> rfl

theorem foldl_shaStep_length (w : List Nat) (l : List Nat) (s : List Nat) :
    (l.foldl (shaStep w) s).length = s.length := by
  induction l generalizing s with
  | nil => rfl
  | cons i l ih => simpa [List.foldl_cons, shaStep_length] using ih (shaStep w s i)

theorem compress_length (h : List Nat) (b : List Nat) (hh : h.length = 8) :
    (compress h b).length = 8 := by
  simp [compress, List.length_zipWith, foldl_shaStep_length, hh]

theorem foldl_compress_length (bs : List (List Nat)) (h : List Nat)
    (hh : h.length = 8) : (bs.foldl compress h).length = 8 := by
  induction bs generalizing h with
  | nil => simpa using hh
  | cons b bs ih => simpa using ih (compress h b) (compress_length h b hh)

theorem natToBytesBE_length (k n : Nat) : (natToBytesBE k n).length = k := by
  induction k generalizing n with
  | zero => rfl
  | succ k ih => simp [natToBytesBE, ih]

theorem flatMap_natToBytesBE_length (l : List Nat) :
    (l.flatMap (natToBytesBE 4)).length = 4 * l.length := by
  induction l with
  | nil => rfl
  | cons x l ih =>
      simp [List.flatMap_cons, natToBytesBE_length, ih]
      ring

theorem sha256_length (m : List Nat) : (sha256 m).length = 32 := by
  unfold sha256
  rw [flatMap_natToBytesBE_length, foldl_compress_length]
  rfl

theorem hmacSha256_length (k m : List Nat) : (hmacSha256 k m).length = 32 := by
  unfold hmacSha256
  exact sha256_length _

theorem hexChars_length (bs : List Nat) : (hexChars bs).length = 2 * bs.length := by
  induction bs with
  | nil => rfl
  | cons b bs ih =>
      simp [hexChars, List.flatMap_cons] at *
      omega

theorem lowerChar_hexDigit (d : Nat) : lowerChar (hexDigit d) = hexDigit d := by
  rcases Nat.lt_or_ge d 16 with h | h
  · interval_cases d <;> decide
  · have hd : hexDigit d = '0' := by
      unfold hexDigit
      rw [if_neg (by omega), if_neg (by omega)]
    rw [hd]; decide

theorem map_lowerChar_hexChars (bs : List Nat) :
    (hexChars bs).map lowerChar = hexChars bs := by
  unfold hexChars
  induction bs with
  | nil => rfl
  | cons b bs ih => simp [List.flatMap_cons, lowerChar_hexDigit, ih]

theorem hexStr_data (bs : List Nat) : (hexStr bs).data = hexChars bs := rfl

theorem strLower_hexStr (bs : List Nat) : strLower (hexStr bs) = hexStr bs := by
  unfold strLower
  rw [hexStr_data, map_lowerChar_hexChars]
  rfl

/-- The expected signature is already lowercase hex. -/
theorem expectedSignature_eq (secret raw : String) :
    expectedSignature secret raw =
      hexStr (hmacSha256 (strBytes secret) (strBytes raw)) :=
  strLower_hexStr _

theorem strLower_expectedSignature (secret raw : String) :
    strLower (expectedSignature secret raw) = expectedSignature secret raw := by
  rw [expectedSignature_eq]
  exact strLower_hexStr _

theorem expectedSignature_data_length (secret raw : String) :
    (expectedSignature secret raw).data.length = 64 := by
  rw [expectedSignature_eq, hexStr_data, hexChars_length, hmacSha256_length]

theorem expectedSignature_ne_empty (secret raw : String) :
    expectedSignature secret raw ≠ "" := by
  intro h
  have := expectedSignature_data_length secret raw
  rw [h] at this
  simp at this

theorem signatureOk_iff (secret raw sig : String) :
    signatureOk secret raw sig = true ↔
      secret ≠ "" ∧ sig ≠ "" ∧ expectedSignature secret raw = strLower sig := by
  simp [signatureOk, and_assoc]

/-- With a configured secret, a present signature, and a matching
digest, verification passes and control reaches the routing stage. -/
theorem afterParse_pass (secret : String) (req : Request) (payload : Json)
    (s : DbSt) (h1 : secret ≠ "") (h2 : getHeaderSignature req ≠ "")
    (h3 : expectedSignature secret req.body = strLower (getHeaderSignature req)) :
    afterParse secret req payload s = routePayload payload s := by
  simp [afterParse, h1, h2, h3]


/-! ### Store-level helper lemmas -/

theorem find?_of_any_false {α : Type} (p : α → Bool) (l : List α)
    (h : l.any p = false) : l.find? p = none := by
  induction l with
  | nil => rfl
  | cons a l ih =>
      simp only [List.any_cons, Bool.or_eq_false_iff] at h
      rw [List.find?_cons_of_neg _ (by simp [h.1])]
      exact ih h.2

theorem find?_append_none {α : Type} (p : α → Bool) (l₁ l₂ : List α)
    (h : l₁.find? p = none) : (l₁ ++ l₂).find? p = l₂.find? p := by
  induction l₁ with
  | nil => rfl
  | cons a l ih =>
      cases hpa : p a with
      | true => rw [List.find?_cons_of_pos _ hpa] at h; cases h
      | false =>
          rw [List.find?_cons_of_neg _ (by simp [hpa])] at h
          rw [List.cons_append, List.find?_cons_of_neg _ (by simp [hpa])]
          exact ih h

theorem find?_isSome_of_any {α : Type} (p : α → Bool) (l : List α)
    (h : l.any p = true) : (l.find? p).isSome = true := by
  induction l with
  | nil => cases h
  | cons a l ih =>
      cases hpa : p a with
      | true => rw [List.find?_cons_of_pos _ hpa]; rfl
      | false =>
          have h' : l.any p = true := by simpa [List.any_cons, hpa] using h
          rw [List.find?_cons_of_neg _ (by simp [hpa])]
          exact ih h'

theorem ensureWalletList_find? (ws : List (String × Int)) (uid : String) :
    (ensureWalletList ws uid).find? (fun w => w.1 == uid) =
      some (match ws.find? (fun w => w.1 == uid) with
            | some w => w
            | none => (uid, 0)) := by
  unfold ensureWalletList
  by_cases h : ws.any (fun w => w.1 == uid) = true
  · rw [if_pos h]
    have hs := find?_isSome_of_any _ _ h
    rcases hfind : ws.find? (fun w => w.1 == uid) with _ | w'
    · rw [hfind] at hs; cases hs
    · rw [hfind]
  · have h' : ws.any (fun w => w.1 == uid) = false := by
      revert h; cases ws.any (fun w => w.1 == uid) <;> simp
    have hnone := find?_of_any_false _ _ h'
    rw [if_neg h, find?_append_none _ _ _ hnone, hnone]
    rw [List.find?_cons_of_pos _ (by simp)]

theorem getBalance_ensureWallet_self (st : Store) (uid : String) :
    getBalance (ensureWallet st uid) uid = some (walletBalOr0 st uid) := by
  unfold getBalance ensureWallet walletBalOr0 getBalance
  rw [ensureWalletList_find?]
  rcases hfind : st.wallets.find? (fun w => w.1 == uid) with _ | w <;> simp [hfind]

theorem find?_setBalance_map (ws : List (String × Int)) (uid : String) (b : Int) :
    (ws.map fun w => if w.1 == uid then (w.1, b) else w).find?
        (fun w => w.1 == uid) =
      (ws.find? (fun w => w.1 == uid)).map (fun w => (w.1, b)) := by
  induction ws with
  | nil => rfl
  | cons w ws ih =>
      cases h : (w.1 == uid) with
      | true =>
          rw [List.map_cons, if_pos h, List.find?_cons, List.find?_cons]
          simp [h]
      | false =>
          rw [List.map_cons, if_neg (by simp [h]), List.find?_cons, List.find?_cons]
          simp only [h]
          exact ih

theorem walletBalOr0_setBalance (st : Store) (uid : String) (b : Int)
    (hx : (st.wallets.find? fun w => w.1 == uid).isSome = true) :
    walletBalOr0 (setBalance st uid b) uid = b := by
  unfold walletBalOr0 getBalance setBalance
  rw [find?_setBalance_map]
  rcases hfind : st.wallets.find? (fun w => w.1 == uid) with _ | w
  · rw [hfind] at hx; cases hx
  · simp [hfind]

theorem ensureWallet_find?_isSome (st : Store) (uid : String) :
    ((ensureWallet st uid).wallets.find? fun w => w.1 == uid).isSome = true := by
  show ((ensureWalletList st.wallets uid).find? fun w => w.1 == uid).isSome = true
  rw [ensureWalletList_find?]
  rfl

/-- `rowIsPaid` of the looked-up row is exactly “stored status is PAID”. -/
theorem rowIsPaid_iff (st : Store) (ext : String) :
    rowIsPaid (findInvoice st ext) = true ↔ invoiceStatus st ext = some "PAID" := by
  unfold rowIsPaid invoiceStatus
  cases findInvoice st ext with
  | none => simp
  | some r => simp

theorem find?_map_upsert (l : List InvoiceRow) (ext : String)
    (f : InvoiceRow → InvoiceRow) (hf : ∀ r, ((f r).external_id == ext) = true)
    (h : l.any (fun r => r.external_id == ext) = true) :
    ∃ r0, l.find? (fun r => r.external_id == ext) = some r0 ∧
      (l.map fun r => if r.external_id == ext then f r else r).find?
          (fun r => r.external_id == ext) = some (f r0) := by
  induction l with
  | nil => cases h
  | cons r l ih =>
      cases hr : (r.external_id == ext) with
      | true =>
          refine ⟨r, List.find?_cons_of_pos _ hr, ?_⟩
          rw [List.map_cons, if_pos hr]
          exact List.find?_cons_of_pos _ (hf r)
      | false =>
          have h' : l.any (fun r => r.external_id == ext) = true := by
            simpa [List.any_cons, hr] using h
          obtain ⟨r0, h1, h2⟩ := ih h'
          refine ⟨r0, ?_, ?_⟩
          · rw [List.find?_cons_of_neg _ (by simp [hr]), h1]
          · rw [List.map_cons, if_neg (by simp [hr]),
              List.find?_cons_of_neg _ (by simp [hr]), h2]

/-- After an upsert, the row stored under `ext` has exactly the
upserted columns (`paid_at` aside). -/
theorem findInvoice_upsertInvoice (st : Store) (ext uid : String) (c a : Int)
    (status : String) (paidAt : Option Nat) (raw : List (String × Json)) :
    ∃ r, findInvoice (upsertInvoice st ext uid c a status paidAt raw) ext = some r ∧
      r.external_id = ext ∧ r.user_id = some uid ∧ r.credits = some c ∧
      r.amount = some a ∧ r.status = some status ∧ r.raw = raw := by
  show ∃ r, (upsertRowList st.invoices ext uid c a status paidAt raw).find?
      (fun r => r.external_id == ext) = some r ∧ _
  unfold upsertRowList
  by_cases h : st.invoices.any (fun r => r.external_id == ext) = true
  · rw [if_pos h]
    obtain ⟨r0, -, h2⟩ := find?_map_upsert st.invoices ext
      (fun r => { external_id := ext, user_id := some uid, credits := some c,
                  amount := some a, status := some status,
                  paid_at := match paidAt with | some t => some t | none => r.paid_at,
                  raw := raw })
      (fun r => by simp) h
    exact ⟨_, h2, rfl, rfl, rfl, rfl, rfl, rfl⟩
  · have h' : st.invoices.any (fun r => r.external_id == ext) = false := by
      simpa using h
    rw [if_neg h, find?_append_none _ _ _ (find?_of_any_false _ _ h'),
      List.find?_cons_of_pos _ (by simp)]
    exact ⟨_, rfl, rfl, rfl, rfl, rfl, rfl, rfl⟩

theorem invoiceStatus_upsertInvoice (st : Store) (ext uid : String) (c a : Int)
    (status : String) (paidAt : Option Nat) (raw : List (String × Json)) :
    invoiceStatus (upsertInvoice st ext uid c a status paidAt raw) ext =
      some status := by
  obtain ⟨r, h1, -, -, -, -, h5, -⟩ :=
    findInvoice_upsertInvoice st ext uid c a status paidAt raw
  unfold invoiceStatus
  rw [h1]
  simpa using h5

/-- Inserting a ledger row for `ext` bumps the count for `ext` by one. -/
theorem ledgerCount_insertLedger (st : Store) (e : LedgerEntry) (ext : String)
    (he : (e.external_id == ext) = true) :
    ledgerCount (insertLedger st e) ext = ledgerCount st ext + 1 := by
  unfold ledgerCount insertLedger
  simp [List.filter_append, he]

/-! ### Running the DB monad without failures -/

theorem DbM_bind_apply {α β : Type} (m : DbM α) (f : α → DbM β) (s : DbSt) :
    (m >>= f) s =
      match m s with
      | (.ok a, s') => f a s'
      | (.error e, s') => (.error e, s') := rfl

theorem DbM_pure_apply {α : Type} (a : α) (s : DbSt) :
    (pure a : DbM α) s = (.ok a, s) := rfl

theorem dbOp_none (st : Store) (i now : Nat) :
    dbOp ⟨st, i, none, now⟩ = (.ok false, ⟨st, i + 1, none, now⟩) := by
  simp [dbOp]

theorem dbFindInvoice_none (ext : String) (st : Store) (i now : Nat) :
    dbFindInvoice ext ⟨st, i, none, now⟩ =
      (.ok (findInvoice st ext), ⟨st, i + 1, none, now⟩) := by
  simp [dbFindInvoice, DbM_bind_apply, dbOp_none, dbGetStore, DbM_pure_apply]

theorem dbUpsertInvoice_none (ext uid : String) (c a : Int) (status : String)
    (wp : Bool) (raw : List (String × Json)) (st : Store) (i now : Nat) :
    dbUpsertInvoice ext uid c a status wp raw ⟨st, i, none, now⟩ =
      (.ok (),
        ⟨upsertInvoice st ext uid c a status (if wp then some now else none) raw,
         i + 1, none, now⟩) := by
  simp [dbUpsertInvoice, DbM_bind_apply, dbOp_none, dbModifyStore]

theorem dbEnsureWallet_none (uid : String) (st : Store) (i now : Nat) :
    dbEnsureWallet uid ⟨st, i, none, now⟩ =
      (.ok (), ⟨ensureWallet st uid, i + 1, none, now⟩) := by
  simp [dbEnsureWallet, DbM_bind_apply, dbOp_none, dbModifyStore]

theorem dbGetBalance_none (uid : String) (st : Store) (i now : Nat) :
    dbGetBalance uid ⟨st, i, none, now⟩ =
      (.ok (getBalance st uid), ⟨st, i + 1, none, now⟩) := by
  simp [dbGetBalance, DbM_bind_apply, dbOp_none, dbGetStore, DbM_pure_apply]

theorem dbSetBalance_none (uid : String) (b : Int) (st : Store) (i now : Nat) :
    dbSetBalance uid b ⟨st, i, none, now⟩ =
      (.ok (), ⟨setBalance st uid b, i + 1, none, now⟩) := by
  simp [dbSetBalance, DbM_bind_apply, dbOp_none, dbModifyStore]

theorem dbInsertLedger_none (e : LedgerEntry) (st : Store) (i now : Nat) :
    dbInsertLedger e ⟨st, i, none, now⟩ =
      (.ok (), ⟨insertLedger st e, i + 1, none, now⟩) := by
  simp [dbInsertLedger, DbM_bind_apply, dbOp_none, dbModifyStore]

/-! ### `markPaid` characterization (no persistence failure) -/

/-- Duplicate delivery: with the stored status already `PAID`,
`markPaid` performs only the invoice upsert/merge. -/
theorem markPaidRun_paid (ext uid : String) (c a : Int) (p : Json) (now : Nat)
    (st : Store) (h : rowIsPaid (findInvoice st ext) = true) :
    markPaidRun ext uid c a p now st =
      upsertInvoice st ext uid c a "PAID" (some now)
        (mergedRaw (findInvoice st ext) p) := by
  unfold markPaidRun markPaid
  rw [DbM_bind_apply, dbFindInvoice_none]
  simp only [h, if_true, dbUpsertInvoice_none]

/-- First effective delivery: with the stored status not `PAID`,
`markPaid` creates the wallet if needed, adds the credits, appends one
ledger entry, and upserts the invoice to `PAID`. -/
theorem markPaidRun_notPaid (ext uid : String) (c a : Int) (p : Json) (now : Nat)
    (st : Store) (h : rowIsPaid (findInvoice st ext) = false) :
    markPaidRun ext uid c a p now st =
      upsertInvoice
        (insertLedger
          (setBalance (ensureWallet st uid) uid (walletBalOr0 st uid + c))
          { user_id := uid, reason := "purchase_credits", amount := c,
            external_id := ext })
        ext uid c a "PAID" (some now) (mergedRaw (findInvoice st ext) p) := by
  unfold markPaidRun markPaid
  rw [DbM_bind_apply, dbFindInvoice_none]
  simp only [h, Bool.false_eq_true, if_false, DbM_bind_apply, dbEnsureWallet_none,
    dbGetBalance_none, getBalance_ensureWallet_self, dbSetBalance_none,
    dbInsertLedger_none, dbUpsertInvoice_none, if_true]

/-! ### Frame facts and the idempotence induction -/

theorem ledgerCount_upsertInvoice (st : Store) (ext uid : String) (c a : Int)
    (status : String) (paidAt : Option Nat) (raw : List (String × Json))
    (ext' : String) :
    ledgerCount (upsertInvoice st ext uid c a status paidAt raw) ext' =
      ledgerCount st ext' := rfl

theorem ledgerCount_setBalance (st : Store) (uid : String) (b : Int)
    (ext' : String) : ledgerCount (setBalance st uid b) ext' = ledgerCount st ext' := rfl

theorem ledgerCount_ensureWallet (st : Store) (uid : String) (ext' : String) :
    ledgerCount (ensureWallet st uid) ext' = ledgerCount st ext' := rfl

theorem walletBalOr0_upsertInvoice (st : Store) (ext uid : String) (c a : Int)
    (status : String) (paidAt : Option Nat) (raw : List (String × Json))
    (uid' : String) :
    walletBalOr0 (upsertInvoice st ext uid c a status paidAt raw) uid' =
      walletBalOr0 st uid' := rfl

theorem walletBalOr0_insertLedger (st : Store) (e : LedgerEntry) (uid' : String) :
    walletBalOr0 (insertLedger st e) uid' = walletBalOr0 st uid' := rfl

theorem deliverPaidN_succ (ext uid : String) (c a : Int) (p : Json) (now : Nat)
    (n : Nat) (st : Store) :
    deliverPaidN ext uid c a p now (n + 1) st =
      markPaidRun ext uid c a p now (deliverPaidN ext uid c a p now n st) := rfl

theorem rowIsPaid_eq_false_of_not_paid (st : Store) (ext : String)
    (h : invoiceStatus st ext ≠ some "PAID") :
    rowIsPaid (findInvoice st ext) = false := by
  cases hh : rowIsPaid (findInvoice st ext) with
  | false => rfl
  | true => exact absurd ((rowIsPaid_iff st ext).mp hh) h

theorem deliverPaidN_props (ext uid : String) (c a : Int) (p : Json) (now : Nat)
    (st : Store) (hnp : invoiceStatus st ext ≠ some "PAID") (n : Nat)
    (hn : 1 ≤ n) :
    invoiceStatus (deliverPaidN ext uid c a p now n st) ext = some "PAID" ∧
    ledgerCount (deliverPaidN ext uid c a p now n st) ext =
      ledgerCount st ext + 1 ∧
    walletBalOr0 (deliverPaidN ext uid c a p now n st) uid =
      walletBalOr0 st uid + c := by
  induction n with
  | zero => exact absurd hn (by omega)
  | succ m ih =>
      rcases Nat.eq_zero_or_pos m with h0 | hpos
      · subst h0
        rw [deliverPaidN_succ,
          show deliverPaidN ext uid c a p now 0 st = st from rfl,
          markPaidRun_notPaid _ _ _ _ _ _ _
            (rowIsPaid_eq_false_of_not_paid st ext hnp)]
        refine ⟨invoiceStatus_upsertInvoice _ _ _ _ _ _ _ _, ?_, ?_⟩
        · rw [ledgerCount_upsertInvoice,
            ledgerCount_insertLedger _ _ _ (by simp),
            ledgerCount_setBalance, ledgerCount_ensureWallet]
        · rw [walletBalOr0_upsertInvoice, walletBalOr0_insertLedger,
            walletBalOr0_setBalance _ _ _ (ensureWallet_find?_isSome st uid)]
      · obtain ⟨ih1, ih2, ih3⟩ := ih hpos
        rw [deliverPaidN_succ,
          markPaidRun_paid _ _ _ _ _ _ _ ((rowIsPaid_iff _ _).mpr ih1)]
        refine ⟨invoiceStatus_upsertInvoice _ _ _ _ _ _ _ _, ?_, ?_⟩
        · rw [ledgerCount_upsertInvoice, ih2]
        · rw [walletBalOr0_upsertInvoice, ih3]

theorem deliverPaidN_frame (ext uid : String) (c a : Int) (p : Json) (now : Nat)
    (st : Store) (hnp : invoiceStatus st ext ≠ some "PAID") (k : Nat)
    (hk : 1 ≤ k) :
    (deliverPaidN ext uid c a p now (k + 1) st).wallets =
      (deliverPaidN ext uid c a p now k st).wallets ∧
    (deliverPaidN ext uid c a p now (k + 1) st).ledger =
      (deliverPaidN ext uid c a p now k st).ledger := by
  obtain ⟨h1, -, -⟩ := deliverPaidN_props ext uid c a p now st hnp k hk
  rw [deliverPaidN_succ,
    markPaidRun_paid _ _ _ _ _ _ _ ((rowIsPaid_iff _ _).mpr h1)]
  exact ⟨rfl, rfl⟩

/-! ### Claim theorems -/

/-- C1: delivering the same `PAID` settlement for one external
reference N ≥ 1 times sequentially produces exactly one ledger entry
for that reference and one balance increment — the final wallet
balance is the initial balance plus the resolved credits, independent
of N — and every delivery after the first performs only the invoice
upsert, leaving wallets and ledger untouched. -/
theorem spec_C1_paid_idempotent (ext uid : String) (c a : Int) (p : Json)
    (now : Nat) (st : Store) (n : Nat) (hn : 1 ≤ n)
    (hled : ledgerCount st ext = 0)
    (hnp : invoiceStatus st ext ≠ some "PAID") :
    ledgerCount (deliverPaidN ext uid c a p now n st) ext = 1 ∧
    walletBalOr0 (deliverPaidN ext uid c a p now n st) uid =
      walletBalOr0 st uid + c ∧
    ∀ k, 1 ≤ k →
      (deliverPaidN ext uid c a p now (k + 1) st).wallets =
        (deliverPaidN ext uid c a p now k st).wallets ∧
      (deliverPaidN ext uid c a p now (k + 1) st).ledger =
        (deliverPaidN ext uid c a p now k st).ledger := by
  obtain ⟨-, h2, h3⟩ := deliverPaidN_props ext uid c a p now st hnp n hn
  exact ⟨by rw [h2, hled], h3,
    fun k hk => deliverPaidN_frame ext uid c a p now st hnp k hk⟩

/-- Witness for C1 at concrete inputs: two deliveries of
`topup_u1_a_10` for 10 credits on an empty store leave exactly one
ledger entry and balance 10. -/
theorem spec_C1_paid_idempotent_witness :
    ledgerCount (deliverPaidN "topup_u1_a_10" "u1" 10 3000 (Json.obj []) 7 2
      emptyStore) "topup_u1_a_10" = 1 ∧
    walletBalOr0 (deliverPaidN "topup_u1_a_10" "u1" 10 3000 (Json.obj []) 7 2
      emptyStore) "u1" = walletBalOr0 emptyStore "u1" + 10 := by
  have h := spec_C1_paid_idempotent "topup_u1_a_10" "u1" 10 3000 (Json.obj []) 7
    emptyStore 2 (by omega) (by rfl) (by simp [invoiceStatus, findInvoice, emptyStore])
  exact ⟨h.1, h.2.1⟩

/-- C5: with a configured secret, verification succeeds exactly on the
case-variants of the hex HMAC-SHA-256 of the raw body — and a passing
verification is what lets the handler proceed past the signature
stage. -/
theorem spec_C5_signature_verifier (secret raw sig : String) (hsec : secret ≠ "") :
    (signatureOk secret raw sig = true ↔
      strLower sig = hexStr (hmacSha256 (strBytes secret) (strBytes raw))) ∧
    (signatureOk secret raw sig = true →
      ∀ (payload : Json) (req : Request) (s : DbSt),
        req.body = raw → getHeaderSignature req = sig →
        afterParse secret req payload s = routePayload payload s) := by
  constructor
  · rw [signatureOk_iff]
    constructor
    · rintro ⟨-, -, h⟩
      rw [← h, expectedSignature_eq]
    · intro h
      refine ⟨hsec, ?_, ?_⟩
      · intro h0
        rw [h0] at h
        have h' : ("" : String) =
            hexStr (hmacSha256 (strBytes secret) (strBytes raw)) := h
        rw [← expectedSignature_eq] at h'
        exact expectedSignature_ne_empty secret raw h'.symm
      · rw [expectedSignature_eq, h]
  · intro hOk payload req s hb hs
    rw [signatureOk_iff] at hOk
    obtain ⟨h1, h2, h3⟩ := hOk
    exact afterParse_pass secret req payload s h1
      (by rw [hs]; exact h2) (by rw [hb, hs]; exact h3)

/-- Witness for C5: the verifier accepts the genuine digest of
`"body"` under secret `"secret"`. -/
theorem spec_C5_signature_verifier_witness :
    signatureOk "secret" "body"
      (hexStr (hmacSha256 (strBytes "secret") (strBytes "body"))) = true :=
  ((spec_C5_signature_verifier "secret" "body"
      (hexStr (hmacSha256 (strBytes "secret") (strBytes "body")))
      (by decide)).1).mpr (strLower_hexStr _)

/-- C7: an authenticated callback whose reference does not start with
`topup_` is acknowledged with the 200 “Ignored non-topup callback”
response, and the store is left entirely untouched (not even a read
is issued: the operation counter stays 0). -/
theorem spec_C7_non_topup_ignored (parse : String → Option Json) (secret : String)
    (req : Request) (payload : Json) (st : Store) (failAt : Option Nat) (now : Nat)
    (hm : req.method = "POST")
    (hp : parsePayload parse req.body = some payload)
    (h1 : secret ≠ "") (h2 : getHeaderSignature req ≠ "")
    (h3 : expectedSignature secret req.body = strLower (getHeaderSignature req))
    (href : jsStartsWith (externalOf (dataEnvelope payload)) "topup_" = false) :
    handleTripayCallback parse secret req ⟨st, 0, failAt, now⟩ =
      (.ok respIgnoredNonTopup, ⟨st, 0, failAt, now⟩) := by
  have hm' : ¬ req.method ≠ "POST" := by simp [hm]
  simp only [handleTripayCallback, if_neg hm', hp]
  rw [afterParse_pass secret req payload _ h1 h2 h3]
  unfold routePayload
  rw [if_pos (by simp [href])]
  rfl

/-- Witness for C7: an authenticated empty-body callback (reference
`""`) is ignored and the store stays `emptyStore`. -/
theorem spec_C7_non_topup_ignored_witness :
    handleTripayCallback (fun _ => none) "k"
      ⟨"POST", [("x-callback-signature", expectedSignature "k" "")], ""⟩
      ⟨emptyStore, 0, none, 0⟩ =
      (.ok respIgnoredNonTopup, ⟨emptyStore, 0, none, 0⟩) := by
  have hhdr : getHeaderSignature
      ⟨"POST", [("x-callback-signature", expectedSignature "k" "")], ""⟩ =
      expectedSignature "k" "" := by
    simp [getHeaderSignature, headerGet, jsOrStr, expectedSignature_ne_empty]
  apply spec_C7_non_topup_ignored (fun _ => none) "k" _ (Json.obj [])
  · rfl
  · rfl
  · decide
  · rw [hhdr]; exact expectedSignature_ne_empty "k" ""
  · rw [hhdr, strLower_expectedSignature]
  · rfl

/-! ### Primitive application lemmas (arbitrary failure schedule) -/

theorem dbOp_apply (s : DbSt) :
    dbOp s = (.ok (decide (s.failAt = some s.opIdx)),
      { s with opIdx := s.opIdx + 1 }) := rfl

theorem dbFindInvoice_apply (ext : String) (s : DbSt) :
    dbFindInvoice ext s =
      (.ok (if s.failAt = some s.opIdx then none else findInvoice s.store ext),
       { s with opIdx := s.opIdx + 1 }) := by
  unfold dbFindInvoice
  rw [DbM_bind_apply, dbOp_apply]
  by_cases hf : s.failAt = some s.opIdx
  · rw [if_pos hf]
    simp [hf, DbM_pure_apply]
  · rw [if_neg hf]
    simp [hf]
    rfl

theorem dbUpsertInvoice_apply (ext uid : String) (c a : Int) (status : String)
    (wp : Bool) (raw : List (String × Json)) (s : DbSt) :
    dbUpsertInvoice ext uid c a status wp raw s =
      (.ok (),
       if s.failAt = some s.opIdx then { s with opIdx := s.opIdx + 1 }
       else
         { s with
           store := upsertInvoice s.store ext uid c a status
             (if wp then some s.now else none) raw,
           opIdx := s.opIdx + 1 }) := by
  unfold dbUpsertInvoice
  rw [DbM_bind_apply, dbOp_apply]
  by_cases hf : s.failAt = some s.opIdx
  · rw [if_pos hf]
    simp [hf, DbM_pure_apply]
  · rw [if_neg hf]
    simp [hf]
    rfl

/-- C4 counterexample: for a POST whose body is the single opening
brace (malformed JSON) with no signature header, the handler answers
the JSON-failure 400, not the signature-failure 400 the claimed
ordering (body → signature → parse) predicts. -/
theorem spec_C4_counterexample :
    handleTripayCallback (fun _ => none) "k" ⟨"POST", [], "\x7b"⟩
        ⟨emptyStore, 0, none, 0⟩ =
      (.ok respInvalidJson, ⟨emptyStore, 0, none, 0⟩) ∧
    respInvalidJson ≠ respMissingSig ∧ respInvalidJson ≠ respInvalidSig := by
  refine ⟨rfl, by decide, by decide⟩

/-- C4 (amended): the actual order is read body → parse JSON → verify
signature: a POST whose non-empty body fails to parse is answered 400
`Invalid JSON` regardless of any signature, with no store access. -/
theorem spec_C4_parse_before_signature (parse : String → Option Json)
    (secret : String) (req : Request) (s : DbSt)
    (hm : req.method = "POST") (hb : ¬ req.body = "")
    (hp : parse req.body = none) :
    handleTripayCallback parse secret req s = (.ok respInvalidJson, s) := by
  have hm' : ¬ req.method ≠ "POST" := by simp [hm]
  simp only [handleTripayCallback, parsePayload, if_neg hm', if_neg hb, hp]
  rfl

/-- Witness for the amended C4: a malformed body with a (well-formed or
not) signature header still gets `Invalid JSON`. -/
theorem spec_C4_parse_before_signature_witness :
    handleTripayCallback (fun _ => none) "sec"
      ⟨"POST", [("x-signature", "deadbeef")], "nope"⟩
      ⟨emptyStore, 0, none, 1⟩ =
      (.ok respInvalidJson, ⟨emptyStore, 0, none, 1⟩) :=
  spec_C4_parse_before_signature (fun _ => none) "sec"
    ⟨"POST", [("x-signature", "deadbeef")], "nope"⟩
    ⟨emptyStore, 0, none, 1⟩ rfl (by decide) rfl

/-! ### Shape of the settlement responses -/

theorem bind_pure_resp {α β : Type} (m : DbM α) (v : β) (s : DbSt) :
    ((m >>= fun _ => (pure v : DbM β)) s).1 = .error () ∨
    ((m >>= fun _ => (pure v : DbM β)) s).1 = .ok v := by
  rw [DbM_bind_apply]
  rcases m s with ⟨⟨⟩ | a, s'⟩
  · left; rfl
  · right; rfl

theorem bind_pure_resp3 {α : Type} (m : DbM α) (s : DbSt) :
    ((m >>= fun _ => (pure (none : Option Response))) s).1 = .error () ∨
    ((m >>= fun _ => (pure (none : Option Response))) s).1 = .ok none ∨
    ((m >>= fun _ => (pure (none : Option Response))) s).1 =
      .ok (some respMissingUser) := by
  rcases bind_pure_resp m (none : Option Response) s with h | h
  · left; exact h
  · right; left; exact h

theorem settleBody_resp (ext : String) (amountRaw : Option Int) (statusRaw : String)
    (payload : Json) (s : DbSt) :
    (settleBody ext amountRaw statusRaw payload s).1 = .error () ∨
    (settleBody ext amountRaw statusRaw payload s).1 = .ok none ∨
    (settleBody ext amountRaw statusRaw payload s).1 = .ok (some respMissingUser) := by
  unfold settleBody
  rw [DbM_bind_apply, dbFindInvoice_apply]
  simp only []
  split
  · split
    · right; right; rfl
    · split
      · exact bind_pure_resp3 _ _
      · exact bind_pure_resp3 _ _
  · split
    · right; right; rfl
    · split
      · exact bind_pure_resp3 _ _
      · exact bind_pure_resp3 _ _

theorem routePayload_resp (payload : Json) (s : DbSt) :
    (routePayload payload s).1 = .ok respIgnoredNonTopup ∨
    (routePayload payload s).1 = .ok respMissingUser ∨
    (routePayload payload s).1 = .ok respSuccess ∨
    (routePayload payload s).1 = .ok respInternal := by
  unfold routePayload
  split
  · left; rfl
  · unfold dbTry
    rw [DbM_bind_apply]
    have hshape := settleBody_resp (externalOf (dataEnvelope payload))
      (amountRawOf (dataEnvelope payload)) (statusRawOf (dataEnvelope payload))
      payload s
    rcases hsb : settleBody (externalOf (dataEnvelope payload))
        (amountRawOf (dataEnvelope payload)) (statusRawOf (dataEnvelope payload))
        payload s with ⟨r, s'⟩
    rw [hsb] at hshape
    rcases hshape with h | h | h
    · have h' : r = .error () := h
      subst h'
      right; right; right; rfl
    · have h' : r = .ok none := h
      subst h'
      right; right; left; rfl
    · have h' : r = .ok (some respMissingUser) := h
      subst h'
      right; left; rfl

theorem afterParse_resp (secret : String) (req : Request) (payload : Json)
    (s : DbSt) :
    (afterParse secret req payload s).1 = .ok respMissingSig ∨
    (afterParse secret req payload s).1 = .ok respInvalidSig ∨
    (afterParse secret req payload s).1 = .ok respIgnoredNonTopup ∨
    (afterParse secret req payload s).1 = .ok respMissingUser ∨
    (afterParse secret req payload s).1 = .ok respSuccess ∨
    (afterParse secret req payload s).1 = .ok respInternal := by
  unfold afterParse
  split
  · left; rfl
  · split
    · right; left; rfl
    · rcases routePayload_resp payload s with h | h | h | h
      · right; right; left; exact h
      · right; right; right; left; exact h
      · right; right; right; right; left; exact h
      · right; right; right; right; right; exact h

/-- C10: a zero-length POST body is never rejected as malformed JSON:
the payload defaults to `{}` (whatever `JSON.parse` would do), and
processing proceeds to signature verification over the empty raw
body. -/
theorem spec_C10_empty_body (parse parse' : String → Option Json) (secret : String)
    (req : Request) (s : DbSt) (hm : req.method = "POST") (hb : req.body = "") :
    handleTripayCallback parse secret req s =
      afterParse secret req (Json.obj []) s ∧
    handleTripayCallback parse secret req s =
      handleTripayCallback parse' secret req s ∧
    (handleTripayCallback parse secret req s).1 ≠ .ok respInvalidJson := by
  have hm' : ¬ req.method ≠ "POST" := by simp [hm]
  have key : ∀ q : String → Option Json,
      handleTripayCallback q secret req s = afterParse secret req (Json.obj []) s := by
    intro q
    simp only [handleTripayCallback, if_neg hm', parsePayload, if_pos hb]
  refine ⟨key parse, by rw [key parse, key parse'], ?_⟩
  rw [key parse]
  rcases afterParse_resp secret req (Json.obj []) s with h | h | h | h | h | h <;>
    rw [h] <;> (intro hc; injection hc with h2; exact absurd h2 (by decide))

/-- Witness for C10 at a concrete empty-body request. -/
theorem spec_C10_empty_body_witness :
    handleTripayCallback (fun _ => none) "k" ⟨"POST", [], ""⟩
        ⟨emptyStore, 0, none, 3⟩ =
      afterParse "k" ⟨"POST", [], ""⟩ (Json.obj []) ⟨emptyStore, 0, none, 3⟩ ∧
    handleTripayCallback (fun _ => none) "k" ⟨"POST", [], ""⟩
        ⟨emptyStore, 0, none, 3⟩ =
      handleTripayCallback (fun _ => some Json.null) "k" ⟨"POST", [], ""⟩
        ⟨emptyStore, 0, none, 3⟩ ∧
    (handleTripayCallback (fun _ => none) "k" ⟨"POST", [], ""⟩
        ⟨emptyStore, 0, none, 3⟩).1 ≠ .ok respInvalidJson :=
  spec_C10_empty_body (fun _ => none) (fun _ => some Json.null) "k"
    ⟨"POST", [], ""⟩ ⟨emptyStore, 0, none, 3⟩ rfl rfl

/-- A settlement whose normalized status is not `PAID` never touches
the ledger or the wallets (it only upserts the invoice row). -/
theorem settleBody_nonpaid_frame (ext : String) (amountRaw : Option Int)
    (statusRaw : String) (payload : Json) (s : DbSt)
    (h : normStatus statusRaw ≠ "PAID") :
    (settleBody ext amountRaw statusRaw payload s).2.store.ledger =
      s.store.ledger ∧
    (settleBody ext amountRaw statusRaw payload s).2.store.wallets =
      s.store.wallets := by
  unfold settleBody
  rw [DbM_bind_apply, dbFindInvoice_apply]
  simp only []
  split
  · split
    · exact ⟨rfl, rfl⟩
    · rw [DbM_bind_apply, dbUpsertInvoice_apply]
      by_cases hf2 : s.failAt = some (s.opIdx + 1)
      · rw [if_pos hf2]; exact ⟨rfl, rfl⟩
      · rw [if_neg hf2]; exact ⟨rfl, rfl⟩
  · split
    · exact ⟨rfl, rfl⟩
    · rw [DbM_bind_apply, dbUpsertInvoice_apply]
      by_cases hf2 : s.failAt = some (s.opIdx + 1)
      · rw [if_pos hf2]; exact ⟨rfl, rfl⟩
      · rw [if_neg hf2]; exact ⟨rfl, rfl⟩

/-- C8: the status token is uppercased and collapses to exactly
`PAID` (from `PAID`/`SUCCESS`), `EXPIRED` (from `EXPIRED`) or the
catch-all `PENDING`; the claimed examples hold, and a non-`PAID`
normalized status never credits (no ledger or wallet effect). -/
theorem spec_C8_status_normalization :
    (∀ s : String,
      statusRawOf (Json.obj [("status", Json.str s)]) = strUpper s) ∧
    (∀ u : String,
      normStatus u =
        if u = "PAID" ∨ u = "SUCCESS" then "PAID"
        else if u = "EXPIRED" then "EXPIRED" else "PENDING") ∧
    normStatus (statusRawOf (Json.obj [("status", Json.str "paid")])) = "PAID" ∧
    normStatus (statusRawOf (Json.obj [("status", Json.str "SUCCESS")])) = "PAID" ∧
    normStatus (statusRawOf (Json.obj [("status", Json.str "Paid")])) = "PAID" ∧
    normStatus (statusRawOf (Json.obj [("status", Json.str "expired")])) = "EXPIRED" ∧
    normStatus (statusRawOf (Json.obj [("status", Json.str "foo")])) = "PENDING" ∧
    normStatus (statusRawOf (Json.obj [])) = "PENDING" ∧
    (∀ (ext : String) (amountRaw : Option Int) (statusRaw : String)
        (payload : Json) (s : DbSt),
      normStatus statusRaw ≠ "PAID" →
      (settleBody ext amountRaw statusRaw payload s).2.store.ledger =
        s.store.ledger ∧
      (settleBody ext amountRaw statusRaw payload s).2.store.wallets =
        s.store.wallets) := by
  refine ⟨?_, fun u => rfl, rfl, rfl, rfl, rfl, rfl, rfl,
    fun ext amountRaw statusRaw payload s h =>
      settleBody_nonpaid_frame ext amountRaw statusRaw payload s h⟩
  intro s
  by_cases hs : s = ""
  · subst hs; rfl
  · simp [statusRawOf, getField, jsTruthy, jsToString, hs]

/-- Witness for C8: the uppercasing equation at `"Paid"` and the
no-credit frame at a concrete `PENDING` settlement. -/
theorem spec_C8_status_normalization_witness :
    statusRawOf (Json.obj [("status", Json.str "Paid")]) = strUpper "Paid" ∧
    (settleBody "topup_u1_a_10" (some 0) "PENDING" (Json.obj [])
        ⟨emptyStore, 0, none, 2⟩).2.store.ledger = emptyStore.ledger :=
  ⟨spec_C8_status_normalization.1 "Paid",
   (spec_C8_status_normalization.2.2.2.2.2.2.2.2 "topup_u1_a_10" (some 0)
      "PENDING" (Json.obj []) ⟨emptyStore, 0, none, 2⟩ (by decide)).1⟩

/-- An authenticated, parsed POST reaches the routing stage. -/
theorem handleTripayCallback_routes (parse : String → Option Json)
    (secret : String) (req : Request) (payload : Json) (s : DbSt)
    (hm : req.method = "POST") (hp : parsePayload parse req.body = some payload)
    (h1 : secret ≠ "") (h2 : getHeaderSignature req ≠ "")
    (h3 : expectedSignature secret req.body = strLower (getHeaderSignature req)) :
    handleTripayCallback parse secret req s = routePayload payload s := by
  have hm' : ¬ req.method ≠ "POST" := by simp [hm]
  simp only [handleTripayCallback, if_neg hm', hp]
  exact afterParse_pass secret req payload s h1 h2 h3

/-- C2: the claimed failure semantics does not hold on the code.  For
an authenticated `PAID` callback for `topup_u1_a_10` on an empty store
whose ledger insert (the request's persistence operation number 5)
fails, supabase resolves with an error the handler never reads, the
`catch` never fires, and the handler falls through to the final 200
`{success: true}` — the gateway will not redeliver — while the wallet
was already credited and the invoice marked `PAID` with no ledger row
recording the credit. -/
theorem spec_C2_failure_acknowledged_200 :
    (handleTripayCallback
        (fun _ => some (Json.obj [("merchant_ref", Json.str "topup_u1_a_10"),
                                  ("status", Json.str "PAID")]))
        "k" ⟨"POST", [("x-signature", expectedSignature "k" "x")], "x"⟩
        ⟨emptyStore, 0, some 5, 5⟩).1 = .ok respSuccess ∧
    ledgerCount
      (handleTripayCallback
        (fun _ => some (Json.obj [("merchant_ref", Json.str "topup_u1_a_10"),
                                  ("status", Json.str "PAID")]))
        "k" ⟨"POST", [("x-signature", expectedSignature "k" "x")], "x"⟩
        ⟨emptyStore, 0, some 5, 5⟩).2.store "topup_u1_a_10" = 0 ∧
    invoiceStatus
      (handleTripayCallback
        (fun _ => some (Json.obj [("merchant_ref", Json.str "topup_u1_a_10"),
                                  ("status", Json.str "PAID")]))
        "k" ⟨"POST", [("x-signature", expectedSignature "k" "x")], "x"⟩
        ⟨emptyStore, 0, some 5, 5⟩).2.store "topup_u1_a_10" = some "PAID" ∧
    walletBalOr0
      (handleTripayCallback
        (fun _ => some (Json.obj [("merchant_ref", Json.str "topup_u1_a_10"),
                                  ("status", Json.str "PAID")]))
        "k" ⟨"POST", [("x-signature", expectedSignature "k" "x")], "x"⟩
        ⟨emptyStore, 0, some 5, 5⟩).2.store "u1" = 10 ∧
    respSuccess.status = 200 ∧ respSuccess ≠ respInternal := by
  have hhdr : getHeaderSignature
      ⟨"POST", [("x-signature", expectedSignature "k" "x")], "x"⟩ =
      expectedSignature "k" "x" := by
    simp [getHeaderSignature, headerGet, jsOrStr, expectedSignature_ne_empty]
  have hroute := handleTripayCallback_routes
    (fun _ => some (Json.obj [("merchant_ref", Json.str "topup_u1_a_10"),
                              ("status", Json.str "PAID")]))
    "k" ⟨"POST", [("x-signature", expectedSignature "k" "x")], "x"⟩
    (Json.obj [("merchant_ref", Json.str "topup_u1_a_10"),
               ("status", Json.str "PAID")])
    ⟨emptyStore, 0, some 5, 5⟩
    rfl rfl (by decide) (by rw [hhdr]; exact expectedSignature_ne_empty "k" "x")
    (by rw [hhdr, strLower_expectedSignature])
  rw [hroute]
  exact ⟨rfl, rfl, rfl, rfl, rfl, by decide⟩

/-- C3 counterexample: a stored `PAID` invoice for `topup_u1_a_10` is
downgraded to `PENDING` by a subsequently processed authenticated
`PENDING` callback for the same reference: the non-`PAID` branch
upserts the incoming status unconditionally. -/
theorem spec_C3_counterexample :
    invoiceStatus
      ⟨[⟨"topup_u1_a_10", some "u1", some 10, some 3000, some "PAID", some 5, []⟩],
       [("u1", 10)], [⟨"u1", "purchase_credits", 10, "topup_u1_a_10"⟩]⟩
      "topup_u1_a_10" = some "PAID" ∧
    invoiceStatus
      (handleTripayCallback
        (fun _ => some (Json.obj [("merchant_ref", Json.str "topup_u1_a_10"),
                                  ("status", Json.str "PENDING")]))
        "k" ⟨"POST", [("x-callback-signature", expectedSignature "k" "b")], "b"⟩
        ⟨⟨[⟨"topup_u1_a_10", some "u1", some 10, some 3000, some "PAID", some 5, []⟩],
          [("u1", 10)], [⟨"u1", "purchase_credits", 10, "topup_u1_a_10"⟩]⟩,
         0, none, 9⟩).2.store "topup_u1_a_10" = some "PENDING" := by
  have hhdr : getHeaderSignature
      ⟨"POST", [("x-callback-signature", expectedSignature "k" "b")], "b"⟩ =
      expectedSignature "k" "b" := by
    simp [getHeaderSignature, headerGet, jsOrStr, expectedSignature_ne_empty]
  refine ⟨rfl, ?_⟩
  have hroute := handleTripayCallback_routes
    (fun _ => some (Json.obj [("merchant_ref", Json.str "topup_u1_a_10"),
                              ("status", Json.str "PENDING")]))
    "k" ⟨"POST", [("x-callback-signature", expectedSignature "k" "b")], "b"⟩
    (Json.obj [("merchant_ref", Json.str "topup_u1_a_10"),
               ("status", Json.str "PENDING")])
    ⟨⟨[⟨"topup_u1_a_10", some "u1", some 10, some 3000, some "PAID", some 5, []⟩],
      [("u1", 10)], [⟨"u1", "purchase_credits", 10, "topup_u1_a_10"⟩]⟩,
     0, none, 9⟩
    rfl rfl (by decide) (by rw [hhdr]; exact expectedSignature_ne_empty "k" "b")
    (by rw [hhdr, strLower_expectedSignature])
  rw [hroute]
  rfl

/-- C3 (amended): a subsequently processed callback for an existing
reference overwrites the stored status with the incoming normalized
status: a further `PAID` delivery keeps `PAID`, but a `PENDING` or
`EXPIRED` delivery replaces the stored `PAID` with that new status. -/
theorem spec_C3_status_overwrite (ext : String) (amountRaw : Option Int)
    (statusRaw : String) (payload : Json) (st : Store) (now : Nat)
    (hres : (jsFalsyS (resolveIds ext (rowUserId (findInvoice st ext))
          (rowCredits (findInvoice st ext))).1 ||
        jsFalsyN (resolveIds ext (rowUserId (findInvoice st ext))
          (rowCredits (findInvoice st ext))).2 ||
        decide ((resolveIds ext (rowUserId (findInvoice st ext))
          (rowCredits (findInvoice st ext))).2.getD 0 ≤ 0)) = false)
    (hnp : normStatus statusRaw ≠ "PAID") :
    invoiceStatus
      (settleBody ext amountRaw statusRaw payload ⟨st, 0, none, now⟩).2.store ext =
      some (normStatus statusRaw) ∧
    (∀ (uid : String) (c a : Int), invoiceStatus st ext = some "PAID" →
      invoiceStatus (markPaidRun ext uid c a payload now st) ext = some "PAID") := by
  constructor
  · unfold settleBody
    rw [DbM_bind_apply, dbFindInvoice_apply, if_neg (by simp)]
    simp only []
    rw [if_neg (by simp [hres]), if_neg hnp, DbM_bind_apply,
      dbUpsertInvoice_apply, if_neg (by simp)]
    exact invoiceStatus_upsertInvoice _ _ _ _ _ _ _ _
  · intro uid c a hpaid
    rw [markPaidRun_paid _ _ _ _ _ _ _ ((rowIsPaid_iff _ _).mpr hpaid)]
    exact invoiceStatus_upsertInvoice _ _ _ _ _ _ _ _

/-- Witness for the amended C3: the `PENDING` settlement at a concrete
`PAID` store yields stored status `PENDING`. -/
theorem spec_C3_status_overwrite_witness :
    invoiceStatus
      (settleBody "topup_u1_a_10" (some 3000) "PENDING" (Json.obj [])
        ⟨⟨[⟨"topup_u1_a_10", some "u1", some 10, some 3000, some "PAID", some 5, []⟩],
          [("u1", 10)], [⟨"u1", "purchase_credits", 10, "topup_u1_a_10"⟩]⟩,
         0, none, 9⟩).2.store "topup_u1_a_10" = some "PENDING" :=
  (spec_C3_status_overwrite "topup_u1_a_10" (some 3000) "PENDING" (Json.obj [])
    ⟨[⟨"topup_u1_a_10", some "u1", some 10, some 3000, some "PAID", some 5, []⟩],
     [("u1", 10)], [⟨"u1", "purchase_credits", 10, "topup_u1_a_10"⟩]⟩
    9 (by decide) (by decide)).1

/-- C9 counterexample: for the five-segment reference
`topup_u1_a_7_50` with no invoice-supplied identity, the resolver
takes the credits from the fourth segment (`7`), not from the final
`<credits>` segment (`50`) of the claimed positional format. -/
theorem spec_C9_counterexample :
    resolveIds "topup_u1_a_7_50" none none = (some "u1", some 7) ∧
    (jsSplit "topup_u1_a_7_50" '_').getLast? = some "50" ∧
    jsParseInt "50" = some 50 ∧ (7 : Int) ≠ 50 :=
  ⟨rfl, rfl, rfl, by decide⟩

/-- C9 (amended): when fallback resolution triggers (no usable invoice
identity or credits) and the reference has at least four
underscore-separated segments, the user id is the second segment and
the credits are taken from the fourth segment, accepted only when
`parseInt` yields a positive integer; in particular
`topup_uid_xyz_50` resolves to user `uid` with credits 50. -/
theorem spec_C9_fallback_resolution (external : String) (userId0 : Option String)
    (credits0 : Option Int)
    (htrig : (jsFalsyS userId0 || jsFalsyN credits0) = true)
    (hlen : 4 ≤ (jsSplit external '_').length) :
    resolveIds external userId0 credits0 =
      (some ((jsSplit external '_').getD 1 ""),
       match jsParseInt ((jsSplit external '_').getD 3 "") with
       | some c => if 0 < c then some c else credits0
       | none => credits0) ∧
    resolveIds "topup_uid_xyz_50" none none = (some "uid", some 50) := by
  constructor
  · unfold resolveIds
    rw [if_pos htrig]
    simp only []
    rw [if_pos hlen]
  · rfl

/-- Witness for the amended C9 at the claim's own example. -/
theorem spec_C9_fallback_resolution_witness :
    resolveIds "topup_uid_xyz_50" none none = (some "uid", some 50) :=
  (spec_C9_fallback_resolution "topup_uid_xyz_50" none none rfl (by decide)).2
